import Mathlib

/-!
Shallow embedding of the `microservice` package (`src/microservice/base.py`):
role resolution (`MicroServiceSingleton._configure_instance`), the singleton
accessor (`MicroServiceSingleton.Instance`), the service registry
(`MicroServiceDispatcher.instance_registry`), the inbound HTTP dispatcher
(`MicroServiceDispatcher.dispatch`) and the method invocation wrapper
(`MicroServiceMethod` / its `inner` closure).

Python values appearing in call envelopes are modelled by `PyVal`; the mutable
attributes of a service instance are modelled by the `ServiceInstance` record,
with attribute assignment becoming functional record update; the process-wide
registry dict is a function `String → Option ServiceInstance`; the network
(`requests.post`) and `random.choice` are oracles passed in as functions, and
`inner` additionally returns the list of HTTP requests it issued so that
"exactly one request, no retry" is expressible.
-/

namespace Microservice

/-- Model of a Python value carried in a call envelope or returned by a
service method: a string, an integer, or None. -/
inductive PyVal where
  | pyStr : String → PyVal
  | pyInt : Int → PyVal
  | pyNone : PyVal
deriving DecidableEq

/-- Python `str(v)` for a `PyVal`. -/
def PyVal.toStr : PyVal → String
  | .pyStr s => s
  | .pyInt n => toString n
  | .pyNone => "None"

/-- Python `repr(v)` as used when a value is rendered inside a list or dict
(string values keep their quotes). -/
def PyVal.pyRepr : PyVal → String
  | .pyStr s => "\x27" ++ s ++ "\x27"
  | .pyInt n => toString n
  | .pyNone => "None"

/-- Python `str(args)` for the positional-argument list. -/
def listRepr (args : List PyVal) : String :=
  "[" ++ String.intercalate ", " (args.map PyVal.pyRepr) ++ "]"

/-- Python `str(kwargs)` for the keyword-argument dict. -/
def dictRepr (kwargs : List (String × PyVal)) : String :=
  "\x7b" ++ String.intercalate ", "
    (kwargs.map (fun p => "\x27" ++ p.1 ++ "\x27: " ++ p.2.pyRepr)) ++ "\x7d"

/-- Python `str.split(sep)` for a one-character separator, on a character
list: `"".split(',') = ['']`, `"a,".split(',') = ['a','']`, never empty. -/
def pySplitList (sep : Char) : List Char → List (List Char)
  | [] => [[]]
  | c :: cs =>
    let rest := pySplitList sep cs
    if c = sep then [] :: rest
    else
      match rest with
      | [] => [[c]]
      | r :: rs => (c :: r) :: rs

/-- Python `s.split(sep)` for a one-character separator. -/
def pySplit (sep : Char) (s : String) : List String :=
  (pySplitList sep s.toList).map (fun cs => String.mk cs)

/-- The underlying (undecorated) implementation of a service method: takes the
positional and keyword arguments (`self` excluded) and either returns a value
or raises (modelled as `Except.error` carrying the exception's message). -/
abbrev Impl : Type := List PyVal → List (String × PyVal) → Except String PyVal

/-- A micro service instance, with the attributes `_configure_instance` sets
(`hostname`, `service_name`, `servers`, `proxy_to_remote`) and its set of
invocable service methods (Python attribute lookup, `getattr`), each mapped to
its undecorated implementation. -/
structure ServiceInstance where
  hostname : String
  service_name : String
  servers : List String
  proxy_to_remote : Bool
  methods : String → Option Impl

/-- The parsed `.ini` settings as `_configure_instance` consumes them:
whether `settings.read` succeeded, the `[MICROSERVICE] services` value if
`settings.get('MICROSERVICE', 'services')` does not raise, and per section
name the `servers` value if `settings.get(section, 'servers')` does not
raise. -/
structure Settings where
  readable : Bool
  services : Option String
  servers : String → Option String

/-- The distinct failure exits of `_configure_instance`:
`settingsNotFound` is the `IOError` when `settings.read` fails,
`servicesMissing` the exception when `[MICROSERVICE]`/`services` is absent,
`serviceNotDeclared` when the service name is not in the declared list,
`serversMissing` the `ConfigParser` error raised by
`settings.get(service_name, 'servers')`, and `serversEmpty` the explicit
`if not service_instance.servers` check. -/
inductive ConfigError where
  | settingsNotFound : ConfigError
  | servicesMissing : ConfigError
  | serviceNotDeclared : ConfigError
  | serversMissing : ConfigError
  | serversEmpty : ConfigError
deriving DecidableEq

/-- The host component of a configured address: `host_plus_port.split(':')[0]`. -/
def hostPart (host_plus_port : String) : String :=
  (pySplit ':' host_plus_port).headD ""

/-- `MicroServiceSingleton._configure_instance` (base.py lines 123-181).
`host` is the `socket.gethostname()` oracle, `name` the decorated class's
`__name__`, `inst` the freshly constructed instance whose attributes are
being set. -/
def configureInstance (host name : String) (settings : Settings)
    (inst : ServiceInstance) : Except ConfigError ServiceInstance :=
  let inst1 : ServiceInstance := { inst with hostname := host, service_name := name }
  if settings.readable = false then
    .error .settingsNotFound
  else
    match settings.services with
    | none => .error .servicesMissing
    | some servicesStr =>
      let all_registered_services := pySplit ',' servicesStr
      if inst1.service_name ∈ all_registered_services then
        match settings.servers inst1.service_name with
        | none => .error .serversMissing
        | some serversStr =>
          let servers := pySplit ',' serversStr
          if servers = [] then .error .serversEmpty
          else
            let server_names := servers.map hostPart
            .ok { inst1 with
                    servers := servers,
                    proxy_to_remote := decide (inst1.hostname ∉ server_names) }
      else .error .serviceNotDeclared

/-- `MicroServiceSingleton.Instance` (base.py lines 101-120): returns the
cached singleton when present; otherwise constructs `base`, stores it in
`self._service_instance` (this happens before configuration, so on a
configuration error the partially configured instance stays cached) and
configures it. The second component is the cached-instance state after the
call. -/
def singletonInstance (host name : String) (settings : Settings)
    (base : ServiceInstance) (cached : Option ServiceInstance) :
    Except ConfigError ServiceInstance × Option ServiceInstance :=
  match cached with
  | some inst => (.ok inst, some inst)
  | none =>
    match configureInstance host name settings base with
    | .error e =>
      (.error e, some { base with hostname := host, service_name := name })
    | .ok inst => (.ok inst, some inst)

/-- An HTTP response as the `requests` library presents it. -/
structure HttpResponse where
  status_code : Nat
  text : String

/-- The JSON body posted to a peer: `{'args': method_args, 'kwargs': kwargs}`. -/
abbrev PostJson : Type := List PyVal × List (String × PyVal)

/-- The URL built by `MicroServiceMethod.inner` (base.py lines 210-211). -/
def remoteUrl (server serviceName functionName : String) : String :=
  "http://" ++ server ++ "/microservice/" ++ serviceName ++ "/" ++ functionName ++ "/?"

/-- `MicroServiceMethod`'s `inner` closure (base.py lines 196-231).
`choice` is the `random.choice` oracle, `post` the `requests.post` oracle;
`service_instance` is `args[0]` (self), `function_name` is `func.func_name`,
`func` the wrapped implementation, and `args`/`kwargs` the call arguments with
self already stripped. Returns the call's outcome (a raised exception is
`Except.error` carrying its message) paired with the list of HTTP POST
requests issued during the call. -/
def inner (choice : List String → String) (post : String → PostJson → HttpResponse)
    (service_instance : ServiceInstance) (function_name : String) (func : Impl)
    (args : List PyVal) (kwargs : List (String × PyVal)) :
    Except String PyVal × List (String × PostJson) :=
  if service_instance.proxy_to_remote then
    let random_server := choice service_instance.servers
    let url := remoteUrl random_server service_instance.service_name function_name
    let post_json : PostJson := (args, kwargs)
    let response := post url post_json
    if response.status_code = 200 then
      (.ok (.pyStr response.text), [(url, post_json)])
    else
      (.error response.text, [(url, post_json)])
  else
    (func args kwargs, [])

/-- A Pyramid response: `HTTPBadRequest(msg)` is status 400 with body `msg`,
`HTTPInternalServerError(msg)` status 500 with body `msg`, and
`Response(text, status=200)` status 200 with body `text`. -/
structure Response where
  status : Nat
  body : String

/-- `MicroServiceDispatcher.register_service_instance` (base.py lines 21-23):
`instance_registry[service_name] = service_instance`. -/
def registerServiceInstance (registry : String → Option ServiceInstance)
    (service_name : String) (service_instance : ServiceInstance) :
    String → Option ServiceInstance :=
  fun n => if n = service_name then some service_instance else registry n

/-- `instance_registry.get(service_class, None)` (base.py line 39). -/
def lookupService (registry : String → Option ServiceInstance)
    (service_name : String) : Option ServiceInstance :=
  registry service_name

/-- `MicroServiceDispatcher.dispatch` (base.py lines 34-83). The registry is
passed and returned explicitly (the Python code mutates the instance stored in
the class-level dict in place); `args`/`kwargs` are the already-decoded
`request.json` fields. The dispatcher forces `proxy_to_remote` to `False`
before looking up the method, invokes the method (whose wrapper therefore
takes its local branch), and restores the flag in a `finally` around the
invocation only. -/
def dispatch (choice : List String → String) (post : String → PostJson → HttpResponse)
    (registry : String → Option ServiceInstance)
    (service_class service_method : String)
    (args : List PyVal) (kwargs : List (String × PyVal)) :
    Response × (String → Option ServiceInstance) :=
  match lookupService registry service_class with
  | none =>
    (⟨400, "Micro service \x27" ++ service_class ++ "\x27 is not registered"⟩, registry)
  | some service_instance =>
    let original_proxy_to_remote := service_instance.proxy_to_remote
    let forced : ServiceInstance := { service_instance with proxy_to_remote := false }
    match forced.methods service_method with
    | none =>
      (⟨400, "Micro service " ++ service_class ++
             " does not have have method named \x27" ++ service_method ++ "\x27"⟩,
       registerServiceInstance registry service_class forced)
    | some method_object =>
      let invoked := inner choice post forced service_method method_object args kwargs
      let restored : ServiceInstance :=
        { forced with proxy_to_remote := original_proxy_to_remote }
      match invoked.1 with
      | .error error =>
        (⟨500, "Micro service " ++ service_class ++ "." ++ service_method ++
               "(args=" ++ listRepr args ++ ", kwargs=" ++ dictRepr kwargs ++
               ") produced error: " ++ error⟩,
         registerServiceInstance registry service_class restored)
      | .ok result =>
        (⟨200, result.toStr⟩, registerServiceInstance registry service_class restored)

/-- `s` contains `sub` as a substring. -/
def containsStr (s sub : String) : Prop :=
  ∃ a b, s = a ++ sub ++ b

/-- A blank, freshly constructed instance before configuration (its
`proxy_to_remote` does not exist yet in Python; any value works since
configuration overwrites it). -/
def blank0 : ServiceInstance :=
  ⟨"", "", [], true, fun _ => none⟩

/-- A concrete settings file mirroring the sample in the docstring of
`_configure_instance`. -/
def settings0 : Settings :=
  ⟨true, some "MathService,EchoService",
   fun n =>
     if n = "EchoService" then some "pmac3,pmac2"
     else if n = "MathService" then some "localhost:6543,127.0.0.1:6543"
     else none⟩

/-- The instance produced by configuring `EchoService` on host `pmac3`. -/
def echoInst : ServiceInstance :=
  ⟨"pmac3", "EchoService", ["pmac3", "pmac2"], false, fun _ => none⟩

/-- A service instance configured Remote (host not among the stripped server
names). -/
def remoteInst : ServiceInstance :=
  ⟨"otherhost", "MathService", ["pmac3", "pmac2"], true, fun _ => none⟩

/-- A concrete `random.choice` oracle: picks the first server. -/
def choice0 : List String → String := fun l => l.headD ""

/-- A network oracle whose every response is status 200 with body `"5"`. -/
def post200 : String → PostJson → HttpResponse := fun _ _ => ⟨200, "5"⟩

/-- A network oracle whose every response is status 500 with body `"boom"`. -/
def post500 : String → PostJson → HttpResponse := fun _ _ => ⟨500, "boom"⟩

/-- The undecorated `MathService.add_numbers` implementation (example.py). -/
def addImpl : Impl := fun args _ =>
  match args with
  | [PyVal.pyInt a, PyVal.pyInt b] => .ok (.pyInt (a + b))
  | _ => .error "TypeError"

/-- An implementation that always raises with message `"boom"`. -/
def failImpl : Impl := fun _ _ => .error "boom"

/-- A configured-Local `MathService` instance with an `add_numbers` method and
a method that always raises. -/
def mathServiceInst : ServiceInstance :=
  ⟨"pmac3", "MathService", ["localhost:6543", "127.0.0.1:6543"], false,
   fun n =>
     if n = "add_numbers" then some addImpl
     else if n = "boom_method" then some failImpl
     else none⟩

/-- A registry holding the Local `MathService` instance. -/
def registry0 : String → Option ServiceInstance :=
  fun n => if n = "MathService" then some mathServiceInst else none

/-- A registry holding the Remote-configured `MathService` instance. -/
def registryR : String → Option ServiceInstance :=
  fun n => if n = "MathService" then some remoteInst else none

theorem pySplitList_ne_nil (sep : Char) (cs : List Char) :
    pySplitList sep cs ≠ [] := by
  induction cs with
  | nil => simp [pySplitList]
  | cons c cs ih =>
    simp only [pySplitList]
    split
    · simp
    · match h : pySplitList sep cs with
      | [] => exact absurd h ih
      | r :: rs => simp

theorem pySplit_ne_nil (sep : Char) (s : String) : pySplit sep s ≠ [] := by
  simp only [pySplit, ne_eq, List.map_eq_nil_iff]
  exact pySplitList_ne_nil sep s.toList

theorem containsStr_appL {s : String} {sub : String} (t : String)
    (h : containsStr s sub) : containsStr (s ++ t) sub := by
  obtain ⟨a, b, rfl⟩ := h
  exact ⟨a, b ++ t, by rw [String.append_assoc]⟩

theorem containsStr_appR {t : String} {sub : String} (s : String)
    (h : containsStr t sub) : containsStr (s ++ t) sub := by
  obtain ⟨a, b, rfl⟩ := h
  exact ⟨s ++ a, b, by simp [String.append_assoc]⟩

theorem containsStr_hereR (a sub : String) : containsStr (a ++ sub) sub :=
  ⟨a, "", by rw [String.append_empty]⟩

theorem containsStr_here (a sub b : String) : containsStr (a ++ sub ++ b) sub :=
  ⟨a, b, rfl⟩

/-- C1: role resolution yields Local (`proxy_to_remote = false`) exactly when
the local host identity equals the host component (before any `:`) of some
configured address, and the `servers` attribute retains the full configured
list, in order, unmodified. -/
theorem role_resolution_local_iff (host name : String) (settings : Settings)
    (inst0 inst : ServiceInstance)
    (h : configureInstance host name settings inst0 = .ok inst) :
    (inst.proxy_to_remote = false ↔ host ∈ inst.servers.map hostPart) ∧
    ∃ s, settings.servers name = some s ∧ inst.servers = pySplit ',' s := by
  obtain ⟨readable, services, serversF⟩ := settings
  cases readable with
  | false => simp [configureInstance] at h
  | true =>
    cases services with
    | none => simp [configureInstance] at h
    | some servicesStr =>
      by_cases hmem : name ∈ pySplit ',' servicesStr
      · cases hsv : serversF name with
        | none => simp [configureInstance, hmem, hsv] at h
        | some serversStr =>
          have hne : pySplit ',' serversStr ≠ [] := pySplit_ne_nil ',' serversStr
          simp [configureInstance, hmem, hsv, hne] at h
          subst h
          refine ⟨?_, serversStr, hsv, rfl⟩
          simp
      · simp [configureInstance, hmem] at h

/-- C1 witness: configuring `EchoService` on host `pmac3` with the sample
settings. -/
theorem role_resolution_local_iff_witness :
    ((echoInst.proxy_to_remote = false ↔ "pmac3" ∈ echoInst.servers.map hostPart) ∧
     ∃ s, settings0.servers "EchoService" = some s ∧
          echoInst.servers = pySplit ',' s) :=
  role_resolution_local_iff "pmac3" "EchoService" settings0 blank0 echoInst rfl

/-- C9: role resolution at first access fails exactly when the settings file
cannot be read, the `[MICROSERVICE]`/`services` entry is missing, the service
name is absent from the declared services, or the service's `servers` entry is
missing; and a later access to an already-cached singleton never re-runs
configuration (returns the cached instance unchanged, no error). -/
theorem configure_error_cases (host name : String) (settings : Settings)
    (inst0 : ServiceInstance) :
    ((∃ e, configureInstance host name settings inst0 = .error e) ↔
      (settings.readable = false ∨ settings.services = none ∨
       (∃ s, settings.services = some s ∧ name ∉ pySplit ',' s) ∨
       settings.servers name = none)) ∧
    (∀ cached, singletonInstance host name settings inst0 (some cached) =
      (.ok cached, some cached)) := by
  refine ⟨?_, fun cached => rfl⟩
  obtain ⟨readable, services, serversF⟩ := settings
  cases readable with
  | false => simp [configureInstance]
  | true =>
    cases services with
    | none => simp [configureInstance]
    | some servicesStr =>
      by_cases hmem : name ∈ pySplit ',' servicesStr
      · cases hsv : serversF name with
        | none => simp [configureInstance, hmem, hsv]
        | some serversStr =>
          have hne : pySplit ',' serversStr ≠ [] := pySplit_ne_nil ',' serversStr
          simp [configureInstance, hmem, hsv, hne]
      · simp [configureInstance, hmem]

/-- C9 witness: configuring the undeclared `FooService` with the sample
settings: the error characterization and the cached-access behavior at a
concrete input. -/
theorem configure_error_cases_witness :
    ((∃ e, configureInstance "pmac3" "FooService" settings0 blank0 = .error e) ↔
      (settings0.readable = false ∨ settings0.services = none ∨
       (∃ s, settings0.services = some s ∧ "FooService" ∉ pySplit ',' s) ∨
       settings0.servers "FooService" = none)) ∧
    (∀ cached, singletonInstance "pmac3" "FooService" settings0 blank0 (some cached) =
      (.ok cached, some cached)) :=
  configure_error_cases "pmac3" "FooService" settings0 blank0

/-- C8: `register_service_instance` unconditionally stores/overwrites the
mapping for the given name: lookup after a register returns the registered
instance, registering twice returns the second, other names are untouched,
and a never-registered name in the empty registry yields `none`. -/
theorem register_overwrites_lookup_latest
    (registry : String → Option ServiceInstance) (name : String)
    (i1 i2 : ServiceInstance) (n : String) :
    lookupService (registerServiceInstance registry name i1) name = some i1 ∧
    lookupService (registerServiceInstance (registerServiceInstance registry name i1) name i2)
      name = some i2 ∧
    (n ≠ name →
      lookupService (registerServiceInstance registry name i1) n =
        lookupService registry n) ∧
    lookupService (fun _ => none) n = none := by
  refine ⟨?_, ?_, ?_, rfl⟩
  · simp [lookupService, registerServiceInstance]
  · simp [lookupService, registerServiceInstance]
  · intro hne
    simp [lookupService, registerServiceInstance, hne]

/-- C8 witness: registering `EchoService` twice in the empty registry and
looking up `EchoService` and the untouched name `MathService`. -/
theorem register_overwrites_lookup_latest_witness :
    lookupService (registerServiceInstance (fun _ => none) "EchoService" blank0)
      "EchoService" = some blank0 ∧
    lookupService (registerServiceInstance
        (registerServiceInstance (fun _ => none) "EchoService" blank0)
        "EchoService" echoInst) "EchoService" = some echoInst ∧
    ("MathService" ≠ "EchoService" →
      lookupService (registerServiceInstance (fun _ => none) "EchoService" blank0)
        "MathService" = lookupService (fun _ => none) "MathService") ∧
    lookupService (fun _ => none) "MathService" = none :=
  register_overwrites_lookup_latest (fun _ => none) "EchoService" blank0 echoInst
    "MathService"

/-- C3: a call through `MicroServiceMethod`'s `inner`: when the owning
service's `proxy_to_remote` is false the call returns the underlying
implementation's native result unchanged (and issues no HTTP request); when
it is true and the chosen peer responds with the success status 200 the call
returns the response body as a string value — never the implementation's
typed result. -/
theorem wrapper_local_native_remote_text
    (choice : List String → String) (post : String → PostJson → HttpResponse)
    (inst : ServiceInstance) (fn : String) (func : Impl)
    (args : List PyVal) (kwargs : List (String × PyVal)) :
    (inst.proxy_to_remote = false →
      inner choice post inst fn func args kwargs = (func args kwargs, [])) ∧
    (inst.proxy_to_remote = true →
      ∀ resp, post (remoteUrl (choice inst.servers) inst.service_name fn)
          (args, kwargs) = resp →
        resp.status_code = 200 →
        (inner choice post inst fn func args kwargs).1 = .ok (.pyStr resp.text)) := by
  constructor
  · intro hlocal
    simp [inner, hlocal]
  · intro hremote resp hresp h200
    subst hresp
    simp [inner, hremote, h200]

/-- C4: a remote-routed call whose chosen peer responds with a non-success
status raises an error whose message is exactly the response body, and the
call issued exactly one HTTP request (no retry against the same or any other
peer). -/
theorem wrapper_remote_failure_no_retry
    (choice : List String → String) (post : String → PostJson → HttpResponse)
    (inst : ServiceInstance) (fn : String) (func : Impl)
    (args : List PyVal) (kwargs : List (String × PyVal)) (resp : HttpResponse)
    (hremote : inst.proxy_to_remote = true)
    (hresp : post (remoteUrl (choice inst.servers) inst.service_name fn)
      (args, kwargs) = resp)
    (hstatus : resp.status_code ≠ 200) :
    inner choice post inst fn func args kwargs =
      (.error resp.text,
       [(remoteUrl (choice inst.servers) inst.service_name fn, (args, kwargs))]) := by
  subst hresp
  simp [inner, hremote, hstatus]

/-- C3 witness: a Local instance returns `add_numbers`'s native result; a
Remote instance whose peer answers 200 with body `"5"` returns the string
`"5"`. -/
theorem wrapper_local_native_remote_text_witness :
    inner choice0 post200 echoInst "add_numbers" addImpl
        [PyVal.pyInt 2, PyVal.pyInt 3] [] =
      (addImpl [PyVal.pyInt 2, PyVal.pyInt 3] [], []) ∧
    (inner choice0 post200 remoteInst "add_numbers" addImpl
        [PyVal.pyInt 2, PyVal.pyInt 3] []).1 = .ok (.pyStr "5") :=
  ⟨(wrapper_local_native_remote_text choice0 post200 echoInst "add_numbers" addImpl
      [PyVal.pyInt 2, PyVal.pyInt 3] []).1 rfl,
   (wrapper_local_native_remote_text choice0 post200 remoteInst "add_numbers" addImpl
      [PyVal.pyInt 2, PyVal.pyInt 3] []).2 rfl ⟨200, "5"⟩ rfl rfl⟩

/-- C4 witness: a Remote instance whose peer answers 500 with body `"boom"`
raises an error with message `"boom"` after exactly one HTTP request. -/
theorem wrapper_remote_failure_no_retry_witness :
    inner choice0 post500 remoteInst "add_numbers" addImpl
        [PyVal.pyInt 2, PyVal.pyInt 3] [] =
      (.error "boom",
       [(remoteUrl (choice0 remoteInst.servers) remoteInst.service_name "add_numbers",
         ([PyVal.pyInt 2, PyVal.pyInt 3], []))]) :=
  wrapper_remote_failure_no_retry choice0 post500 remoteInst "add_numbers" addImpl
    [PyVal.pyInt 2, PyVal.pyInt 3] [] ⟨500, "boom"⟩ rfl rfl (by decide)

/-- C5: an inbound dispatch that reaches method invocation: when the
invocation raises, the response has status 500 (Internal Server Error) and
its body contains the service name, the method name, the rendered positional
and keyword arguments, and the failure's message; when it succeeds, the
response is status 200 with body the textual representation of the result. -/
theorem dispatch_invocation_response
    (choice : List String → String) (post : String → PostJson → HttpResponse)
    (registry : String → Option ServiceInstance) (sc sm : String)
    (args : List PyVal) (kwargs : List (String × PyVal))
    (inst : ServiceInstance) (func : Impl)
    (hreg : registry sc = some inst)
    (hmeth : inst.methods sm = some func) :
    (∀ e, func args kwargs = .error e →
      (dispatch choice post registry sc sm args kwargs).1.status = 500 ∧
      containsStr (dispatch choice post registry sc sm args kwargs).1.body sc ∧
      containsStr (dispatch choice post registry sc sm args kwargs).1.body sm ∧
      containsStr (dispatch choice post registry sc sm args kwargs).1.body (listRepr args) ∧
      containsStr (dispatch choice post registry sc sm args kwargs).1.body (dictRepr kwargs) ∧
      containsStr (dispatch choice post registry sc sm args kwargs).1.body e) ∧
    (∀ v, func args kwargs = .ok v →
      (dispatch choice post registry sc sm args kwargs).1 = ⟨200, v.toStr⟩) := by
  constructor
  · intro e herr
    have hd : (dispatch choice post registry sc sm args kwargs).1 =
        ⟨500, "Micro service " ++ sc ++ "." ++ sm ++ "(args=" ++ listRepr args ++
              ", kwargs=" ++ dictRepr kwargs ++ ") produced error: " ++ e⟩ := by
      simp [dispatch, lookupService, hreg, hmeth, inner, herr]
    rw [hd]
    refine ⟨rfl, ?_, ?_, ?_, ?_, ?_⟩
    · exact containsStr_appL _ (containsStr_appL _ (containsStr_appL _
        (containsStr_appL _ (containsStr_appL _ (containsStr_appL _
          (containsStr_appL _ (containsStr_appL _ (containsStr_hereR _ _))))))))
    · exact containsStr_appL _ (containsStr_appL _ (containsStr_appL _
        (containsStr_appL _ (containsStr_appL _ (containsStr_appL _
          (containsStr_hereR _ _))))))
    · exact containsStr_appL _ (containsStr_appL _ (containsStr_appL _
        (containsStr_appL _ (containsStr_hereR _ _))))
    · exact containsStr_appL _ (containsStr_appL _ (containsStr_hereR _ _))
    · exact containsStr_hereR _ _
  · intro v hok
    simp [dispatch, lookupService, hreg, hmeth, inner, hok]

/-- C6: dispatching to a service name absent from the registry yields a 400
(Bad Request) response whose body names that service; dispatching to a
registered service with a method name the instance does not have yields a 400
response whose body names that method. -/
theorem dispatch_bad_request_cases
    (choice : List String → String) (post : String → PostJson → HttpResponse)
    (registry : String → Option ServiceInstance) (sc sm : String)
    (args : List PyVal) (kwargs : List (String × PyVal)) :
    (registry sc = none →
      (dispatch choice post registry sc sm args kwargs).1.status = 400 ∧
      containsStr (dispatch choice post registry sc sm args kwargs).1.body sc) ∧
    (∀ inst, registry sc = some inst → inst.methods sm = none →
      (dispatch choice post registry sc sm args kwargs).1.status = 400 ∧
      containsStr (dispatch choice post registry sc sm args kwargs).1.body sm) := by
  constructor
  · intro hnone
    have hd : (dispatch choice post registry sc sm args kwargs).1 =
        ⟨400, "Micro service \x27" ++ sc ++ "\x27 is not registered"⟩ := by
      simp [dispatch, lookupService, hnone]
    rw [hd]
    exact ⟨rfl, containsStr_appL _ (containsStr_hereR _ _)⟩
  · intro inst hreg hmeth
    have hd : (dispatch choice post registry sc sm args kwargs).1 =
        ⟨400, "Micro service " ++ sc ++ " does not have have method named \x27" ++
              sm ++ "\x27"⟩ := by
      simp [dispatch, lookupService, hreg, hmeth]
    rw [hd]
    exact ⟨rfl, containsStr_appL _ (containsStr_hereR _ _)⟩

/-- C7: an inbound dispatch that reaches the method-invocation step restores
the instance's `proxy_to_remote` flag to its pre-dispatch value whether the
invocation succeeds or raises: the instance stored in the registry after
dispatch carries the same flag as before. -/
theorem dispatch_restores_proxy_flag
    (choice : List String → String) (post : String → PostJson → HttpResponse)
    (registry : String → Option ServiceInstance) (sc sm : String)
    (args : List PyVal) (kwargs : List (String × PyVal))
    (inst : ServiceInstance) (func : Impl)
    (hreg : registry sc = some inst)
    (hmeth : inst.methods sm = some func) :
    ∃ r, (dispatch choice post registry sc sm args kwargs).2 sc = some r ∧
      r.proxy_to_remote = inst.proxy_to_remote := by
  cases h : func args kwargs with
  | error e =>
    refine ⟨{ inst with proxy_to_remote := inst.proxy_to_remote }, ?_, rfl⟩
    simp [dispatch, lookupService, hreg, hmeth, inner, h, registerServiceInstance]
  | ok v =>
    refine ⟨{ inst with proxy_to_remote := inst.proxy_to_remote }, ?_, rfl⟩
    simp [dispatch, lookupService, hreg, hmeth, inner, h, registerServiceInstance]

/-- C5 witness: invoking the raising method yields status 500 with the
service name, method name, arguments and message in the body; invoking
`add_numbers(2, 3)` yields status 200 with body `str(5)`. -/
theorem dispatch_invocation_response_witness :
    ((dispatch choice0 post200 registry0 "MathService" "boom_method" [] []).1.status = 500 ∧
     containsStr (dispatch choice0 post200 registry0 "MathService" "boom_method" [] []).1.body
       "MathService" ∧
     containsStr (dispatch choice0 post200 registry0 "MathService" "boom_method" [] []).1.body
       "boom_method" ∧
     containsStr (dispatch choice0 post200 registry0 "MathService" "boom_method" [] []).1.body
       (listRepr []) ∧
     containsStr (dispatch choice0 post200 registry0 "MathService" "boom_method" [] []).1.body
       (dictRepr []) ∧
     containsStr (dispatch choice0 post200 registry0 "MathService" "boom_method" [] []).1.body
       "boom") ∧
    (dispatch choice0 post200 registry0 "MathService" "add_numbers"
        [PyVal.pyInt 2, PyVal.pyInt 3] []).1 = ⟨200, (PyVal.pyInt 5).toStr⟩ :=
  ⟨(dispatch_invocation_response choice0 post200 registry0 "MathService" "boom_method"
      [] [] mathServiceInst failImpl rfl rfl).1 "boom" rfl,
   (dispatch_invocation_response choice0 post200 registry0 "MathService" "add_numbers"
      [PyVal.pyInt 2, PyVal.pyInt 3] [] mathServiceInst addImpl rfl rfl).2
      (PyVal.pyInt 5) rfl⟩

/-- C6 witness: dispatching the unregistered `FooService` and the missing
method `nope` on the registered `MathService`. -/
theorem dispatch_bad_request_cases_witness :
    ((dispatch choice0 post200 registry0 "FooService" "m" [] []).1.status = 400 ∧
     containsStr (dispatch choice0 post200 registry0 "FooService" "m" [] []).1.body
       "FooService") ∧
    ((dispatch choice0 post200 registry0 "MathService" "nope" [] []).1.status = 400 ∧
     containsStr (dispatch choice0 post200 registry0 "MathService" "nope" [] []).1.body
       "nope") :=
  ⟨(dispatch_bad_request_cases choice0 post200 registry0 "FooService" "m" [] []).1 rfl,
   (dispatch_bad_request_cases choice0 post200 registry0 "MathService" "nope" [] []).2
     mathServiceInst rfl rfl⟩

/-- C7 witness: after dispatching `add_numbers` on the registered
`MathService`, the stored flag equals its pre-dispatch value. -/
theorem dispatch_restores_proxy_flag_witness :
    ∃ r, (dispatch choice0 post200 registry0 "MathService" "add_numbers"
        [PyVal.pyInt 2, PyVal.pyInt 3] []).2 "MathService" = some r ∧
      r.proxy_to_remote = mathServiceInst.proxy_to_remote :=
  dispatch_restores_proxy_flag choice0 post200 registry0 "MathService" "add_numbers"
    [PyVal.pyInt 2, PyVal.pyInt 3] [] mathServiceInst addImpl rfl rfl

/-- C10: a dispatch naming a registered service and a missing method returns
its 400 response with `proxy_to_remote` left `false` in the registry: the
stored instance now takes the wrapper's local branch on every call, and any
later dispatch to that service keeps the flag `false`. -/
theorem missing_method_disables_remote
    (choice : List String → String) (post : String → PostJson → HttpResponse)
    (registry : String → Option ServiceInstance) (sc sm : String)
    (args : List PyVal) (kwargs : List (String × PyVal))
    (inst : ServiceInstance)
    (hreg : registry sc = some inst)
    (hmeth : inst.methods sm = none) :
    (dispatch choice post registry sc sm args kwargs).1.status = 400 ∧
    ∃ r, (dispatch choice post registry sc sm args kwargs).2 sc = some r ∧
      r.proxy_to_remote = false ∧
      (∀ fn func a k, inner choice post r fn func a k = (func a k, [])) ∧
      (∀ reg2 sm2 a2 k2 i2, reg2 sc = some i2 → i2.proxy_to_remote = false →
        ∀ r2, (dispatch choice post reg2 sc sm2 a2 k2).2 sc = some r2 →
          r2.proxy_to_remote = false) := by
  refine ⟨?_, { inst with proxy_to_remote := false }, ?_, rfl, ?_, ?_⟩
  · simp [dispatch, lookupService, hreg, hmeth]
  · simp [dispatch, lookupService, hreg, hmeth, registerServiceInstance]
  · intro fn func a k
    simp [inner]
  · intro reg2 sm2 a2 k2 i2 h2 hflag r2 hr2
    cases hm2 : i2.methods sm2 with
    | none =>
      simp [dispatch, lookupService, h2, hm2, registerServiceInstance] at hr2
      rw [← hr2]
    | some f2 =>
      cases hres : f2 a2 k2 with
      | error e =>
        simp [dispatch, lookupService, h2, hm2, inner, hres,
          registerServiceInstance] at hr2
        rw [← hr2]
        exact hflag
      | ok v =>
        simp [dispatch, lookupService, h2, hm2, inner, hres,
          registerServiceInstance] at hr2
        rw [← hr2]
        exact hflag

/-- C10 witness: dispatching the missing method `no_such_method` on the
Remote-configured `MathService`. -/
theorem missing_method_disables_remote_witness :
    (dispatch choice0 post200 registryR "MathService" "no_such_method" [] []).1.status = 400 ∧
    ∃ r, (dispatch choice0 post200 registryR "MathService" "no_such_method" [] []).2
        "MathService" = some r ∧
      r.proxy_to_remote = false ∧
      (∀ fn func a k, inner choice0 post200 r fn func a k = (func a k, [])) ∧
      (∀ reg2 sm2 a2 k2 i2, reg2 "MathService" = some i2 → i2.proxy_to_remote = false →
        ∀ r2, (dispatch choice0 post200 reg2 "MathService" sm2 a2 k2).2
            "MathService" = some r2 →
          r2.proxy_to_remote = false) :=
  missing_method_disables_remote choice0 post200 registryR "MathService"
    "no_such_method" [] [] remoteInst rfl rfl

/-- C2 counterexample: the Remote-configured `MathService` instance has
`proxy_to_remote = true` before dispatch; after an inbound dispatch naming a
method it does not have, the instance stored in the registry has
`proxy_to_remote = false`: an inbound dispatch does modify the resolved
role. -/
theorem dispatch_mutates_role_counterexample :
    remoteInst.proxy_to_remote = true ∧
    lookupService registryR "MathService" = some remoteInst ∧
    ∃ r, (dispatch choice0 post200 registryR "MathService" "no_such_method" [] []).2
        "MathService" = some r ∧ r.proxy_to_remote = false :=
  ⟨rfl, rfl, { remoteInst with proxy_to_remote := false }, rfl, rfl⟩

/-- C2 amended: the role flag is computed once at configuration; inbound
dispatch does modify it transiently, and the flag stored after a dispatch
equals the pre-dispatch value when the method exists (the `finally` restores
it) and `false` when the method is missing. -/
theorem dispatch_flag_after_value
    (choice : List String → String) (post : String → PostJson → HttpResponse)
    (registry : String → Option ServiceInstance) (sc sm : String)
    (args : List PyVal) (kwargs : List (String × PyVal))
    (inst : ServiceInstance)
    (hreg : registry sc = some inst) :
    ∀ r, (dispatch choice post registry sc sm args kwargs).2 sc = some r →
      r.proxy_to_remote =
        (if (inst.methods sm).isSome then inst.proxy_to_remote else false) := by
  intro r hr
  cases hm : inst.methods sm with
  | none =>
    simp [dispatch, lookupService, hreg, hm, registerServiceInstance] at hr
    rw [← hr]
    simp [hm]
  | some f =>
    cases hres : f args kwargs with
    | error e =>
      simp [dispatch, lookupService, hreg, hm, inner, hres,
        registerServiceInstance] at hr
      rw [← hr]
      simp [hm]
    | ok v =>
      simp [dispatch, lookupService, hreg, hm, inner, hres,
        registerServiceInstance] at hr
      rw [← hr]
      simp [hm]

/-- C2 amended witness: dispatching a missing method on the
Remote-configured `MathService` leaves the stored flag at the value the
characterization predicts (`false`, since the method is absent). -/
theorem dispatch_flag_after_value_witness :
    ({ remoteInst with proxy_to_remote := false } : ServiceInstance).proxy_to_remote =
      (if (remoteInst.methods "no_such_method").isSome then remoteInst.proxy_to_remote
       else false) :=
  dispatch_flag_after_value choice0 post200 registryR "MathService" "no_such_method"
    [] [] remoteInst rfl { remoteInst with proxy_to_remote := false } rfl

end Microservice
